import Mathlib

/-!
Verification development for the printer colour-calibration workflow.

The Python sources (printer_calibration/{config,analysis,controller}.py) are
shallowly embedded below.  Numeric values are exact rationals.  The two
`np.sqrt`-based quantities (`get_lab_distance` and `_get_phase1_error`) are
embedded by their squares: the source only ever compares them (`< 0.5` and
`>` between two errors), and square root is strictly monotone on the
non-negative reals, so comparing squares is observationally identical; the
lemmas `sqrt_embedding_dist` and `sqrt_embedding_err` below record this
justification over ℝ.  Python exceptions are modelled by `Option`: a `none`
result of a controller operation models an uncaught exception.  Python dict
truthiness (`if not adjustment:`) is modelled by list emptiness of the
association list that embeds the dict.  External collaborators (the CIEDE2000
`delta_e` formula and the sRGB→Lab transform) are parameters, bundled in
`Collaborators`; the ICC exporter collaborator's outcome is passed to
`export_icc` as a `(success, message)` pair.  String renderings of numbers
and of the adjustment dict are abstracted (`adjRepr`, `qstr`): no verified
property depends on numeric formatting.
-/

namespace PrinterCalibration

/-- A measured Lab triple: one row's colour coordinates (analysis.py reads
rows as (L, a, b) tuples). -/
structure Lab where
  L : ℚ
  a : ℚ
  b : ℚ
  deriving DecidableEq

/-- A measurement batch: ordered rows of patch name plus Lab triple
(the normalized DataFrame consumed by the controller). -/
abbrev Batch := List (String × Lab)

/-- A per-channel ink adjustment suggestion, embedding the Python dict
with keys "C", "M", "Y" as an association list in insertion order. -/
abbrev Adjustment := List (String × Int)

/-- config.Phase1Targets: targets for the mid-grey anchor. -/
structure Phase1Targets where
  patch_name : String := "RGB100"
  L_range : ℚ × ℚ := (36.5, 39.5)
  a_range : ℚ × ℚ := (-2.0, 2.0)
  b_range : ℚ × ℚ := (-4.0, 4.0)
  deriving DecidableEq

/-- config.Phase2Targets: neutral slope validation tolerances. -/
structure Phase2Targets where
  rgb150_patch_name : String := "RGB150"
  rgb150_a_tol : ℚ := 2.0
  rgb150_b_tol : ℚ := 4.0
  rgb200_patch_name : String := "RGB200"
  rgb200_a_tol : ℚ := 2.0
  rgb200_b_tol : ℚ := 3.5
  deriving DecidableEq

/-- config.Phase4Targets: colour patch analysis ceilings. -/
structure Phase4Targets where
  mean_delta_e : ℚ := 13.0
  percentile_95_delta_e : ℚ := 24.0
  max_delta_e : ℚ := 27.0
  skin_tone_delta_e : ℚ := 12.0
  skin_tone_names : List String := ["Skin1", "Skin2"]
  deriving DecidableEq

/-- config.Convergence: stopping criteria for iterative adjustments. -/
structure Convergence where
  min_abs_change : ℚ := 0.5
  deriving DecidableEq

/-- config.InkSteps: coarse and fine ink adjustment step sizes. -/
structure InkSteps where
  coarse : Int := 4
  fine : Int := 1
  deriving DecidableEq

/-- The default-constructed configs loaded in CalibrationController initializer. -/
def phase1Targets : Phase1Targets := {}

/-- Default Phase 2 targets. -/
def phase2Targets : Phase2Targets := {}

/-- Default Phase 4 targets. -/
def phase4Targets : Phase4Targets := {}

/-- Default convergence rules. -/
def convergenceRules : Convergence := {}

/-- Default ink step sizes. -/
def inkSteps : InkSteps := {}

/-- config.COLOUR_PATCHES: the static patch-definition table (name, 8-bit RGB). -/
def COLOUR_PATCHES : List (String × Nat × Nat × Nat) :=
  [("N0", 0, 0, 0), ("N64", 64, 64, 64), ("N128", 128, 128, 128),
   ("N192", 192, 192, 192), ("N224", 224, 224, 224), ("N240", 240, 240, 240),
   ("N248", 248, 248, 248), ("N255", 255, 255, 255),
   ("R", 255, 0, 0), ("G", 0, 255, 0), ("B", 0, 0, 255),
   ("C", 0, 255, 255), ("M", 255, 0, 255), ("Y", 255, 255, 0),
   ("R+64", 255, 64, 64), ("G+64", 64, 255, 64), ("B+64", 64, 64, 255),
   ("R-64", 192, 0, 0), ("G-64", 0, 192, 0), ("B-64", 0, 0, 192),
   ("Skin1", 224, 172, 105), ("Skin2", 198, 134, 66),
   ("Sky", 135, 206, 235), ("Leaf", 34, 139, 34)]

/-- The patch names present in the Reference Colour Table. -/
def reference_names : List String := COLOUR_PATCHES.map (fun c => c.1)

/-- External collaborators consumed as black boxes: the CIEDE2000 colour
difference (deltae.delta_e) and the sRGB→Lab transform (colour.sRGB_to_Lab
applied to a normalized rgb triple). -/
structure Collaborators where
  delta_e : Lab → Lab → ℚ
  sRGB_to_Lab : ℚ × ℚ × ℚ → Lab

/-- Python abs on an exact rational (defined explicitly so that concrete
states kernel-evaluate; equal to Mathlib's lattice `abs`, see `qabs_eq_abs`). -/
def qabs (x : ℚ) : ℚ := if x < 0 then -x else x

/-- analysis.get_patch_lab: the first row whose patch name matches, or None. -/
def get_patch_lab (df : Batch) (patch_name : String) : Option Lab :=
  (df.find? (fun r => r.1 == patch_name)).map (fun r => r.2)

/-- Square of analysis.get_lab_distance (the Delta E 1976 Euclidean distance). -/
def get_lab_distance_sq (lab1 lab2 : Lab) : ℚ :=
  (lab1.L - lab2.L) ^ 2 + (lab1.a - lab2.a) ^ 2 + (lab1.b - lab2.b) ^ 2

/-- analysis.is_patch_within_target: all three coordinates within their
inclusive Phase 1 ranges. -/
def is_patch_within_target (patch_lab : Lab) (targets : Phase1Targets) : Bool :=
  decide (targets.L_range.1 ≤ patch_lab.L ∧ patch_lab.L ≤ targets.L_range.2 ∧
    targets.a_range.1 ≤ patch_lab.a ∧ patch_lab.a ≤ targets.a_range.2 ∧
    targets.b_range.1 ≤ patch_lab.b ∧ patch_lab.b ≤ targets.b_range.2)

/-- The signed a-coordinate error used by suggest_adjustment:
measured minus the center (np.mean) of the configured range. -/
def a_err_of (patch_lab : Lab) (targets : Phase1Targets) : ℚ :=
  patch_lab.a - (targets.a_range.1 + targets.a_range.2) / 2

/-- The signed b-coordinate error used by suggest_adjustment. -/
def b_err_of (patch_lab : Lab) (targets : Phase1Targets) : ℚ :=
  patch_lab.b - (targets.b_range.1 + targets.b_range.2) / 2

/-- The a half-width tolerance used by suggest_adjustment. -/
def a_tol_of (targets : Phase1Targets) : ℚ :=
  (targets.a_range.2 - targets.a_range.1) / 2

/-- The b half-width tolerance used by suggest_adjustment. -/
def b_tol_of (targets : Phase1Targets) : ℚ :=
  (targets.b_range.2 - targets.b_range.1) / 2

/-- analysis.suggest_adjustment: per-channel ink adjustments from neutral
errors.  The Python dict starts as C,M,Y all 0; the a-rule and b-rule
each bump channels by the fine step (if/elif chains); then if either
error magnitude exceeds twice its tolerance, every non-zero entry is
replaced by the coarse step. -/
def suggest_adjustment (patch_lab : Lab) (targets : Phase1Targets)
    (steps : InkSteps) : Adjustment :=
  let a_err := a_err_of patch_lab targets
  let b_err := b_err_of patch_lab targets
  let a_tol := a_tol_of targets
  let b_tol := b_tol_of targets
  let cm : Int × Int :=
    if a_err > a_tol then (steps.fine, 0)
    else if a_err < -a_tol then (0, steps.fine)
    else (0, 0)
  let cmy : Int × Int × Int :=
    if b_err > b_tol then (cm.1 + steps.fine, cm.2 + steps.fine, 0)
    else if b_err < -b_tol then (cm.1, cm.2, steps.fine)
    else (cm.1, cm.2, 0)
  let adj : Adjustment := [("C", cmy.1), ("M", cmy.2.1), ("Y", cmy.2.2)]
  if qabs a_err > a_tol * 2 ∨ qabs b_err > b_tol * 2 then
    adj.map (fun p => if p.2 ≠ 0 then (p.1, steps.coarse) else p)
  else adj

/-- analysis.get_reference_lab_values: the Reference Colour Table, mapping
each static patch name to the collaborator's transform of its normalized
8-bit RGB triple. -/
def get_reference_lab_values (co : Collaborators) : List (String × Lab) :=
  COLOUR_PATCHES.map (fun c =>
    (c.1, co.sRGB_to_Lab ((c.2.1 : ℚ) / 255, (c.2.2.1 : ℚ) / 255, (c.2.2.2 : ℚ) / 255)))

/-- Insert-or-overwrite for the Python dict built by analyze_color_patches
(later rows overwrite earlier ones; insertion order is kept). -/
def dict_insert (d : List (String × Lab)) (k : String) (v : Lab) :
    List (String × Lab) :=
  if d.any (fun p => p.1 == k) then
    d.map (fun p => if p.1 == k then (k, v) else p)
  else d ++ [(k, v)]

/-- The measured_patches dict of analyze_color_patches: one entry per
distinct patch name, keeping the last row's triple. -/
def measured_dict (df : Batch) : List (String × Lab) :=
  df.foldl (fun d r => dict_insert d r.1 r.2) []

/-- Maximum of a list of rationals (np.max on a non-empty array; 0 on []). -/
def listMax : List ℚ → ℚ
  | [] => 0
  | x :: xs => xs.foldl max x

/-- Insertion into a sorted list, for the sort underlying np.percentile. -/
def insertSorted (x : ℚ) : List ℚ → List ℚ
  | [] => [x]
  | y :: ys => if x ≤ y then x :: y :: ys else y :: insertSorted x ys

/-- Ascending insertion sort of a list of rationals. -/
def sortQ (xs : List ℚ) : List ℚ := xs.foldr insertSorted []

/-- np.percentile(values, 95) with the default linear interpolation. -/
def percentile95 (vs : List ℚ) : ℚ :=
  let sorted := sortQ vs
  let n := sorted.length
  if n = 0 then 0
  else
    let pos : ℚ := 95 / 100 * ((n : ℚ) - 1)
    let i : ℕ := (Rat.floor pos).toNat
    let lo := sorted.getD i 0
    let hi := sorted.getD (i + 1) lo
    lo + (pos - (i : ℚ)) * (hi - lo)

/-- Rendering of a rational for the Phase 4 report (Python's .2f float
formatting is abstracted; no verified property depends on it). -/
def qstr (x : ℚ) : String := toString x

/-- The pass/fail mark of analyze_color_patches report lines. -/
def checkMark (v : Bool) : String := if v then "✅" else "❌"

/-- The formatted Phase 4 report string of analyze_color_patches. -/
def phase4Report (passed mean_ok p95_ok max_ok skin_ok : Bool)
    (mean_de p95_de max_de max_skin_de : ℚ) (targets : Phase4Targets) : String :=
  "--- Phase 4 Colour Analysis ---\n" ++
  checkMark passed ++ " Overall Result: " ++
  (if passed then "PASSED" else "FAILED") ++ "\n\n" ++
  "CIEDE2000 Statistics:\n" ++
  "  " ++ checkMark mean_ok ++ " Mean ΔE:   " ++ qstr mean_de ++
  " (Target: ≤ " ++ qstr targets.mean_delta_e ++ ")\n" ++
  "  " ++ checkMark p95_ok ++ " 95th % ΔE: " ++ qstr p95_de ++
  " (Target: ≤ " ++ qstr targets.percentile_95_delta_e ++ ")\n" ++
  "  " ++ checkMark max_ok ++ " Max ΔE:    " ++ qstr max_de ++
  " (Target: ≤ " ++ qstr targets.max_delta_e ++ ")\n" ++
  "  " ++ checkMark skin_ok ++ " Skin Tones ΔE: " ++ qstr max_skin_de ++
  " (Target: ≤ " ++ qstr targets.skin_tone_delta_e ++ ")\n"

/-- analysis.analyze_color_patches: CIEDE2000 statistics of the patches
present in both the batch and the Reference Colour Table, checked against
the Phase 4 ceilings.  Returns (passed, report). -/
def analyze_color_patches (co : Collaborators) (df : Batch)
    (targets : Phase4Targets) : Bool × String :=
  let reference_labs := get_reference_lab_values co
  let delta_es : List (String × ℚ) :=
    (measured_dict df).filterMap (fun p =>
      match reference_labs.find? (fun q => q.1 == p.1) with
      | some q => some (p.1, co.delta_e p.2 q.2)
      | none => none)
  if delta_es.isEmpty then
    (false, "No matching patches found between measurements and references.")
  else
    let de_values := delta_es.map (fun p => p.2)
    let mean_de := de_values.sum / (de_values.length : ℚ)
    let p95_de := percentile95 de_values
    let max_de := listMax de_values
    let skin_de_values :=
      (delta_es.filter (fun p => targets.skin_tone_names.contains p.1)).map
        (fun p => p.2)
    let max_skin_de := if skin_de_values.isEmpty then 0 else listMax skin_de_values
    let mean_ok := decide (mean_de ≤ targets.mean_delta_e)
    let p95_ok := decide (p95_de ≤ targets.percentile_95_delta_e)
    let max_ok := decide (max_de ≤ targets.max_delta_e)
    let skin_ok := decide (max_skin_de ≤ targets.skin_tone_delta_e)
    let passed := mean_ok && p95_ok && max_ok && skin_ok
    (passed, phase4Report passed mean_ok p95_ok max_ok skin_ok
      mean_de p95_de max_de max_skin_de targets)

/-- controller.CalibrationPhase: the sequential phases of the calibration
process. -/
inductive CalibrationPhase where
  | PRECONDITION
  | PHASE_1_NEUTRAL_GREY
  | PHASE_2_NEUTRAL_SLOPE
  | PHASE_3_DRIVER_LOCK
  | PHASE_4_COLOR_ANALYSIS
  | PHASE_5_ICC_CONSTRUCTION
  | COMPLETE
  | ERROR
  deriving DecidableEq

open CalibrationPhase

/-- The mutable state of controller.CalibrationController (the configs it
loads are the frozen defaults, embedded as the constants above). -/
structure ControllerState where
  phase : CalibrationPhase
  history : List (Batch × Adjustment)
  last_error_message : String
  last_measurements_df : Option Batch
  deriving DecidableEq

/-- The state built by the CalibrationController initializer. -/
def initState : ControllerState :=
  { phase := PRECONDITION, history := [], last_error_message := "",
    last_measurements_df := none }

/-- Square of controller._get_phase1_error: squared distance in the a*b*
plane from the measured patch to the center of the Phase 1 target ranges. -/
def get_phase1_error_sq (patch_lab : Lab) : ℚ :=
  let a_target := (phase1Targets.a_range.1 + phase1Targets.a_range.2) / 2
  let b_target := (phase1Targets.b_range.1 + phase1Targets.b_range.2) / 2
  (patch_lab.a - a_target) ^ 2 + (patch_lab.b - b_target) ^ 2

/-- np.sign. -/
def npSign (x : ℚ) : ℚ := if x > 0 then 1 else if x < 0 then -1 else 0

/-- The message of the Phase 2 missing-patches branch (the Python f-string
interpolates the three configured patch names). -/
def missingNeutralMsg : String :=
  "One or more neutral patches (RGB100, RGB150, RGB200) are missing."

/-- The message returned for submissions in locked phases. -/
def lockedMsg : String :=
  "Driver adjustments are locked. No further measurements can be processed for tuning."

/-- controller._process_phase2: neutral slope validation using the default
Phase 1 / Phase 2 targets loaded at construction. -/
def processPhase2 (s : ControllerState) (df : Batch) : ControllerState × String :=
  match get_patch_lab df phase1Targets.patch_name,
      get_patch_lab df phase2Targets.rgb150_patch_name,
      get_patch_lab df phase2Targets.rgb200_patch_name with
  | some p1_lab, some p150_lab, some p200_lab =>
    let p150_ok := decide (qabs p150_lab.a ≤ phase2Targets.rgb150_a_tol) &&
      decide (qabs p150_lab.b ≤ phase2Targets.rgb150_b_tol)
    let p200_ok := decide (qabs p200_lab.a ≤ phase2Targets.rgb200_a_tol) &&
      decide (qabs p200_lab.b ≤ phase2Targets.rgb200_b_tol)
    if !(p150_ok && p200_ok) then
      let m := "Neutral slope validation failed. RGB150 or RGB200 are outside tolerance."
      ({s with last_error_message := m, phase := ERROR}, m)
    else if npSign p1_lab.a * npSign p150_lab.a < 0 ∨
        npSign p150_lab.a * npSign p200_lab.a < 0 ∨
        npSign p1_lab.b * npSign p150_lab.b < 0 ∨
        npSign p150_lab.b * npSign p200_lab.b < 0 then
      let m := "Neutral slope is not monotonic. Indicates driver limits."
      ({s with last_error_message := m, phase := PHASE_3_DRIVER_LOCK},
        m ++ " Freezing driver adjustments.")
    else
      ({s with phase := PHASE_3_DRIVER_LOCK},
        "Phase 2 Passed: Neutral slope is valid. Driver adjustments are now locked.")
  | _, _, _ =>
    ({s with last_error_message := missingNeutralMsg, phase := ERROR},
      missingNeutralMsg)

/-- Rendering of the adjustment dict in the suggestion message (Python's
dict repr formatting is abstracted; no verified property depends on it). -/
def adjRepr (adjustment : Adjustment) : String :=
  String.intercalate ", "
    (adjustment.map (fun p => p.1 ++ ": " ++ toString p.2))

/-- The message of the Phase 1 not-found branch (the Python f-string quotes
the configured patch name; the quoting is abstracted). -/
def patchNotFoundMsg : String :=
  "Patch RGB100 not found in measurement data."

/-- The message of the (dead) Phase 1 inconsistent-state branch. -/
def noEffectiveAdjMsg : String :=
  "No effective adjustment could be calculated, but patch is not within target."

/-- The Phase 1 converged-but-outside-target warning message. -/
def convergedOutsideMsg : String :=
  "Phase 1 Converged but outside target. This may indicate driver limitations. Freezing adjustments."

/-- controller._process_phase1: mid-grey anchor calibration.  A `none`
result models the uncaught TypeError raised when `_get_phase1_error` is
evaluated on a previous batch that lacks the anchor patch (the source
computes `prev_err_val` unconditionally after the guarded distance check;
the guarded check and the crash point are collapsed into one match on the
previous patch reading, which is observationally identical). -/
def processPhase1 (s : ControllerState) (df : Batch) :
    Option (ControllerState × String) :=
  match get_patch_lab df phase1Targets.patch_name with
  | none =>
    some ({s with last_error_message := patchNotFoundMsg, phase := ERROR},
      patchNotFoundMsg)
  | some patch_lab =>
    let convRes : Option Bool :=
      match s.history.getLast? with
      | none => some false
      | some (prev_df, _) =>
        match get_patch_lab prev_df phase1Targets.patch_name with
        | none => none
        | some prev_lab =>
          some (decide (get_lab_distance_sq patch_lab prev_lab <
              convergenceRules.min_abs_change ^ 2) ||
            decide (get_phase1_error_sq patch_lab > get_phase1_error_sq prev_lab))
    match convRes with
    | none => none
    | some is_converged =>
      let is_within_target := is_patch_within_target patch_lab phase1Targets
      if is_converged then
        if is_within_target then
          some (processPhase2
            { s with
              history := s.history ++ [(df, [])]
              phase := PHASE_2_NEUTRAL_SLOPE } df)
        else
          some ({s with phase := PHASE_3_DRIVER_LOCK}, convergedOutsideMsg)
      else
        let adjustment := suggest_adjustment patch_lab phase1Targets inkSteps
        let s2 := {s with history := s.history ++ [(df, adjustment)]}
        if adjustment.isEmpty then
          if is_within_target then
            some (processPhase2 {s2 with phase := PHASE_2_NEUTRAL_SLOPE} df)
          else
            some ({ s2 with
              last_error_message := noEffectiveAdjMsg
              phase := ERROR }, noEffectiveAdjMsg)
        else
          some (s2, "Suggestion for next print: " ++ adjRepr adjustment)

/-- controller._process_phase4: full colour chart analysis. -/
def processPhase4 (co : Collaborators) (s : ControllerState) (df : Batch) :
    ControllerState × String :=
  let pr := analyze_color_patches co df phase4Targets
  if pr.1 then
    ({s with phase := PHASE_5_ICC_CONSTRUCTION, last_measurements_df := some df},
      pr.2)
  else
    ({ s with
      phase := ERROR
      last_error_message := "Colour patch analysis failed. See report for details." },
      pr.2)

/-- controller.process_measurements: phase dispatch, with the PRECONDITION
auto-advance to Phase 1 on the same batch. -/
def process_measurements (co : Collaborators) (s : ControllerState)
    (df : Batch) : Option (ControllerState × String) :=
  let s1 := if s.phase = PRECONDITION then {s with phase := PHASE_1_NEUTRAL_GREY}
    else s
  if s1.phase = PHASE_1_NEUTRAL_GREY then processPhase1 s1 df
  else if s1.phase = PHASE_2_NEUTRAL_SLOPE then some (processPhase2 s1 df)
  else if s1.phase = PHASE_4_COLOR_ANALYSIS then some (processPhase4 co s1 df)
  else if s1.phase = PHASE_3_DRIVER_LOCK ∨ s1.phase = COMPLETE ∨
      s1.phase = PHASE_5_ICC_CONSTRUCTION then
    some ({s1 with last_error_message := lockedMsg}, lockedMsg)
  else some (s1, "No processing action defined for the current phase.")

/-- controller.export_icc: the external exporter collaborator's reported
outcome (success flag, message) is passed in as `exporter_result`. -/
def export_icc (s : ControllerState) (exporter_result : Bool × String) :
    ControllerState × String :=
  if s.phase ≠ PHASE_5_ICC_CONSTRUCTION then
    (s, "Not in the correct phase to export an ICC profile.")
  else
    match s.last_measurements_df with
    | none =>
      let m := "No valid measurement data available for export."
      ({s with phase := ERROR, last_error_message := m}, m)
    | some _ =>
      if exporter_result.1 then
        ({s with phase := COMPLETE}, exporter_result.2)
      else (s, exporter_result.2)

/-- controller.set_phase: unconditional manual override clearing history,
last error and the retained batch. -/
def set_phase (_s : ControllerState) (phase : CalibrationPhase) :
    ControllerState :=
  { phase := phase, history := [], last_error_message := "",
    last_measurements_df := none }

/-- controller.reset. -/
def reset (s : ControllerState) : ControllerState := set_phase s PRECONDITION

/-- States reachable through the public controller API from the initial
state, under arbitrary collaborator behaviour. -/
inductive Reachable : ControllerState → Prop where
  | init : Reachable initState
  | processStep (co : Collaborators) (s : ControllerState) (df : Batch)
      (s2 : ControllerState) (m : String) : Reachable s →
      process_measurements co s df = some (s2, m) → Reachable s2
  | exportStep (s : ControllerState) (r : Bool × String) : Reachable s →
      Reachable (export_icc s r).1
  | setPhaseStep (s : ControllerState) (p : CalibrationPhase) : Reachable s →
      Reachable (set_phase s p)
  | resetStep (s : ControllerState) : Reachable s → Reachable (reset s)

/-- The history invariant: every batch stored in history contains the
Phase 1 anchor patch. -/
def history_ok (s : ControllerState) : Prop :=
  ∀ e ∈ s.history, (get_patch_lab e.1 phase1Targets.patch_name).isSome

/-- A trivial collaborator instantiation used for concrete executions in
witnesses and counterexamples (the code paths they exercise never consult
the collaborators, or do so only through the key set of the reference
table, which does not depend on the collaborator). -/
def defaultCollab : Collaborators :=
  { delta_e := fun _ _ => 0, sRGB_to_Lab := fun _ => { L := 0, a := 0, b := 0 } }

/-- The explicit Python abs agrees with the lattice abs on ℚ. -/
theorem qabs_eq_abs (x : ℚ) : qabs x = |x| := by
  unfold qabs
  rcases lt_trichotomy x 0 with h | h | h
  · rw [if_pos h, abs_of_neg h]
  · simp [h]
  · rw [if_neg (not_lt.mpr h.le), abs_of_pos h]

/-- The Phase 1 squared scalar error is non-negative. -/
theorem get_phase1_error_sq_nonneg (patch_lab : Lab) :
    0 ≤ get_phase1_error_sq patch_lab := by
  unfold get_phase1_error_sq
  positivity

/-- Justification of the squared embedding of `_get_phase1_error`: the
source compares `np.sqrt`-errors of two readings; since square root is
strictly monotone on the non-negative reals, this is equivalent to the
comparison of the squared errors used in `processPhase1`. -/
theorem sqrt_embedding_err (lab1 lab2 : Lab) :
    Real.sqrt ((get_phase1_error_sq lab1 : ℚ) : ℝ) <
        Real.sqrt ((get_phase1_error_sq lab2 : ℚ) : ℝ) ↔
      get_phase1_error_sq lab1 < get_phase1_error_sq lab2 := by
  rw [Real.sqrt_lt_sqrt_iff (by exact_mod_cast get_phase1_error_sq_nonneg lab1)]
  exact_mod_cast Iff.rfl

/-- Justification of the squared embedding of `get_lab_distance`: the
source compares the Euclidean distance against the positive threshold
`min_abs_change`; this is equivalent to comparing the squared distance
against the squared threshold used in `processPhase1`. -/
theorem sqrt_embedding_dist (lab1 lab2 : Lab) (c : ℚ) (hc : 0 < c) :
    Real.sqrt ((get_lab_distance_sq lab1 lab2 : ℚ) : ℝ) < (c : ℝ) ↔
      get_lab_distance_sq lab1 lab2 < c ^ 2 := by
  rw [Real.sqrt_lt' (by exact_mod_cast hc)]
  exact_mod_cast Iff.rfl

/-- Closed instantiation of `sqrt_embedding_dist` at the configured
threshold. -/
theorem sqrt_embedding_dist_witness :
    Real.sqrt ((get_lab_distance_sq { L := 0, a := 0, b := 0 }
        { L := 0, a := 0, b := 0 } : ℚ) : ℝ) < ((1 : ℚ) : ℝ) ↔
      get_lab_distance_sq { L := 0, a := 0, b := 0 }
        { L := 0, a := 0, b := 0 } < (1 : ℚ) ^ 2 :=
  sqrt_embedding_dist { L := 0, a := 0, b := 0 } { L := 0, a := 0, b := 0 } 1
    one_pos

/-- suggest_adjustment always returns the three-channel association list,
never the empty dict: the Python `if not adjustment:` test in
`_process_phase1` is therefore always false. -/
theorem suggest_adjustment_isEmpty (patch_lab : Lab) (targets : Phase1Targets)
    (steps : InkSteps) :
    (suggest_adjustment patch_lab targets steps).isEmpty = false := by
  unfold suggest_adjustment
  dsimp only
  split_ifs <;> rfl

/-- processPhase2 never touches the history. -/
theorem processPhase2_history (s : ControllerState) (df : Batch) :
    ((processPhase2 s df).1).history = s.history := by
  unfold processPhase2
  split
  · dsimp only
    split_ifs <;> rfl
  · rfl

/-- processPhase4 never touches the history. -/
theorem processPhase4_history (co : Collaborators) (s : ControllerState)
    (df : Batch) : ((processPhase4 co s df).1).history = s.history := by
  unfold processPhase4
  dsimp only
  split_ifs <;> rfl

/-- export_icc never touches the history. -/
theorem export_icc_history (s : ControllerState) (r : Bool × String) :
    ((export_icc s r).1).history = s.history := by
  unfold export_icc
  by_cases h1 : s.phase ≠ PHASE_5_ICC_CONSTRUCTION
  · rw [if_pos h1]
  · rw [if_neg h1]
    cases s.last_measurements_df with
    | none => rfl
    | some b =>
      dsimp only
      split_ifs <;> rfl

/-- Membership of the last element of a list. -/
theorem mem_of_getLast?_eq {α : Type} {l : List α} {a : α}
    (h : l.getLast? = some a) : a ∈ l := by
  have ha : a ∈ l.getLast? := by rw [h]; rfl
  rcases List.mem_getLast?_eq_getLast ha with ⟨hne, rfl⟩
  exact List.getLast_mem hne

/-- history_ok transfers along equal histories. -/
theorem history_ok_of_history_eq (s s2 : ControllerState)
    (h : s2.history = s.history) (hok : history_ok s) : history_ok s2 := by
  intro e he
  exact hok e (h ▸ he)

/-- Appending a batch that contains the anchor patch preserves the history
invariant. -/
theorem history_ok_append (s s2 : ControllerState) (df : Batch)
    (adj : Adjustment) (h : s2.history = s.history ++ [(df, adj)])
    (hok : history_ok s)
    (hdf : (get_patch_lab df phase1Targets.patch_name).isSome) :
    history_ok s2 := by
  intro e he
  rw [h] at he
  rcases List.mem_append.mp he with h1 | h1
  · exact hok e h1
  · have : e = (df, adj) := List.mem_singleton.mp h1
    subst this
    exact hdf

/-- Totality and invariant preservation of the Phase 1 handler: on a state
whose history satisfies the invariant, `_process_phase1` cannot raise, and
the invariant is preserved. -/
theorem processPhase1_total (s : ControllerState) (df : Batch)
    (h : history_ok s) :
    ∃ s2 m, processPhase1 s df = some (s2, m) ∧ history_ok s2 := by
  unfold processPhase1
  cases hlab : get_patch_lab df phase1Targets.patch_name with
  | none => exact ⟨_, _, rfl, h⟩
  | some patch_lab =>
    dsimp only
    have hconv : ∃ b : Bool,
        (match s.history.getLast? with
          | none => some false
          | some (prev_df, _) =>
            match get_patch_lab prev_df phase1Targets.patch_name with
            | none => none
            | some prev_lab =>
              some (decide (get_lab_distance_sq patch_lab prev_lab <
                  convergenceRules.min_abs_change ^ 2) ||
                decide (get_phase1_error_sq patch_lab >
                  get_phase1_error_sq prev_lab))) = some b := by
      cases hlast : s.history.getLast? with
      | none => exact ⟨false, rfl⟩
      | some pe =>
        obtain ⟨prev_df, prev_adj⟩ := pe
        have hsome := h _ (mem_of_getLast?_eq hlast)
        obtain ⟨prev_lab, hprev⟩ := Option.isSome_iff_exists.mp hsome
        dsimp only at hprev ⊢
        rw [hprev]
        exact ⟨_, rfl⟩
    obtain ⟨is_converged, hcr⟩ := hconv
    rw [hcr]
    dsimp only
    clear hcr
    cases is_converged with
    | true =>
      rw [if_pos rfl]
      by_cases hw : is_patch_within_target patch_lab phase1Targets = true
      · rw [if_pos hw]
        refine ⟨_, _, (by rw [Prod.mk.eta]), ?_⟩
        apply history_ok_append s _ df []
        · rw [processPhase2_history]
        · exact h
        · rw [hlab]; rfl
      · rw [if_neg hw]
        exact ⟨_, _, rfl, history_ok_of_history_eq s _ rfl h⟩
    | false =>
      rw [if_neg (by simp)]
      rw [if_neg (by rw [suggest_adjustment_isEmpty]; simp)]
      refine ⟨_, _, rfl, ?_⟩
      apply history_ok_append s _ df (suggest_adjustment patch_lab phase1Targets inkSteps)
      · rfl
      · exact h
      · rw [hlab]; rfl

/-- Totality and invariant preservation of process_measurements on states
satisfying the history invariant. -/
theorem process_measurements_total (co : Collaborators) (s : ControllerState)
    (df : Batch) (h : history_ok s) :
    ∃ s2 m, process_measurements co s df = some (s2, m) ∧ history_ok s2 := by
  unfold process_measurements
  dsimp only
  set s1 := if s.phase = PRECONDITION then
      { s with phase := PHASE_1_NEUTRAL_GREY } else s with hs1
  have h1 : history_ok s1 := by
    apply history_ok_of_history_eq s s1 _ h
    rw [hs1]
    split_ifs <;> rfl
  by_cases hp1 : s1.phase = PHASE_1_NEUTRAL_GREY
  · rw [if_pos hp1]
    exact processPhase1_total s1 df h1
  · rw [if_neg hp1]
    by_cases hp2 : s1.phase = PHASE_2_NEUTRAL_SLOPE
    · rw [if_pos hp2]
      refine ⟨_, _, (by rw [Prod.mk.eta]), ?_⟩
      exact history_ok_of_history_eq s1 _ (processPhase2_history s1 df) h1
    · rw [if_neg hp2]
      by_cases hp4 : s1.phase = PHASE_4_COLOR_ANALYSIS
      · rw [if_pos hp4]
        refine ⟨_, _, (by rw [Prod.mk.eta]), ?_⟩
        exact history_ok_of_history_eq s1 _ (processPhase4_history co s1 df) h1
      · rw [if_neg hp4]
        by_cases hpl : s1.phase = PHASE_3_DRIVER_LOCK ∨ s1.phase = COMPLETE ∨
            s1.phase = PHASE_5_ICC_CONSTRUCTION
        · rw [if_pos hpl]
          exact ⟨_, _, rfl, history_ok_of_history_eq s1 _ rfl h1⟩
        · rw [if_neg hpl]
          exact ⟨_, _, rfl, h1⟩

/-- Every reachable controller state satisfies the history invariant:
every batch ever appended to history was first checked to contain the
Phase 1 anchor patch. -/
theorem reachable_history_ok (s : ControllerState) (h : Reachable s) :
    history_ok s := by
  induction h with
  | init =>
    intro e he
    simp [initState] at he
  | processStep co s df s2 m _ heq ih =>
    obtain ⟨s2', m', heq', hok⟩ := process_measurements_total co s df ih
    rw [heq] at heq'
    have : s2' = s2 := by
      have := Option.some.inj heq'
      exact congrArg Prod.fst this.symm
    rw [← this]
    exact hok
  | exportStep s r _ ih =>
    exact history_ok_of_history_eq s _ (export_icc_history s r) ih
  | setPhaseStep s p _ _ =>
    intro e he
    simp [set_phase] at he
  | resetStep s _ _ =>
    intro e he
    simp [reset, set_phase] at he

/-- C2: for every measurement batch and every reachable controller state,
process_measurements returns a result (models: never raises) — a message
string and a state whose phase is a defined member of the enumeration —
and every batch stored in history contains the Phase 1 anchor patch, so
the Phase 1 previous-error evaluation never fails. -/
theorem C2_process_total_on_reachable (co : Collaborators)
    (s : ControllerState) (df : Batch) (h : Reachable s) :
    history_ok s ∧ ∃ s2 m, process_measurements co s df = some (s2, m) := by
  have hok := reachable_history_ok s h
  obtain ⟨s2, m, heq, _⟩ := process_measurements_total co s df hok
  exact ⟨hok, s2, m, heq⟩

/-- Witness for C2 at the initial state and an empty batch. -/
theorem C2_witness :
    history_ok initState ∧
      ∃ s2 m, process_measurements defaultCollab initState [] = some (s2, m) :=
  C2_process_total_on_reachable defaultCollab initState [] Reachable.init

/-- Concrete evaluation: a small a-error (within twice the tolerance) gets
a fine-step suggestion. -/
theorem suggest_eval_fine :
    suggest_adjustment { L := 50, a := 3, b := 0 } phase1Targets inkSteps =
      [("C", 1), ("M", 0), ("Y", 0)] := by
  simp only [suggest_adjustment, a_err_of, b_err_of, a_tol_of, b_tol_of, qabs,
    phase1Targets, inkSteps]
  norm_num

/-- Concrete evaluation: a large b-error escalates every non-zero channel
to the coarse step (this is the scenario of tests/test_analysis.py). -/
theorem suggest_eval_coarse :
    suggest_adjustment { L := 50, a := -3, b := -9 } phase1Targets inkSteps =
      [("C", 0), ("M", 4), ("Y", 4)] := by
  simp only [suggest_adjustment, a_err_of, b_err_of, a_tol_of, b_tol_of, qabs,
    phase1Targets, inkSteps]
  norm_num

/-- C3: if both error magnitudes are at most twice their tolerances, every
non-zero channel of the suggestion is a fine-step value (the fine step, or
twice the fine step when both coordinate rules bump the same channel); if
either magnitude strictly exceeds twice its tolerance, every non-zero
channel equals exactly the coarse step. -/
theorem C3_escalation (patch_lab : Lab) (targets : Phase1Targets)
    (steps : InkSteps) :
    ((|a_err_of patch_lab targets| ≤ a_tol_of targets * 2 ∧
        |b_err_of patch_lab targets| ≤ b_tol_of targets * 2) →
      ∀ p ∈ suggest_adjustment patch_lab targets steps, p.2 ≠ 0 →
        p.2 = steps.fine ∨ p.2 = 2 * steps.fine) ∧
    ((|a_err_of patch_lab targets| > a_tol_of targets * 2 ∨
        |b_err_of patch_lab targets| > b_tol_of targets * 2) →
      ∀ p ∈ suggest_adjustment patch_lab targets steps, p.2 ≠ 0 →
        p.2 = steps.coarse) := by
  simp only [← qabs_eq_abs]
  constructor
  · intro hle p hp hne
    unfold suggest_adjustment at hp
    dsimp only at hp
    rw [if_neg (by simp only [not_or, not_lt]; exact ⟨hle.1, hle.2⟩)] at hp
    simp only [List.mem_cons, List.not_mem_nil, or_false] at hp
    rcases hp with rfl | rfl | rfl <;>
      · dsimp only at hne ⊢
        split_ifs at hne ⊢ <;> dsimp only at hne ⊢ <;> omega
  · intro hgt p hp hne
    unfold suggest_adjustment at hp
    dsimp only at hp
    rw [if_pos hgt] at hp
    rcases List.mem_map.mp hp with ⟨x, _, rfl⟩
    split_ifs at hne ⊢ with hx2
    · rfl
    · exact absurd hne hx2

/-- Witness for C3: the fine branch at a = 3 (error within twice the
tolerance) and the coarse branch at (a, b) = (-3, -9) (b-error beyond
twice the tolerance). -/
theorem C3_witness :
    ((("C" : String), (1 : Int)).2 = inkSteps.fine ∨
      (("C" : String), (1 : Int)).2 = 2 * inkSteps.fine) ∧
      (("M" : String), (4 : Int)).2 = inkSteps.coarse := by
  constructor
  · apply (C3_escalation { L := 50, a := 3, b := 0 } phase1Targets inkSteps).1
    · constructor <;>
        · simp only [a_err_of, b_err_of, a_tol_of, b_tol_of, phase1Targets]
          norm_num
    · rw [suggest_eval_fine]
      simp
    · decide
  · apply (C3_escalation { L := 50, a := -3, b := -9 } phase1Targets inkSteps).2
    · right
      simp only [b_err_of, b_tol_of, phase1Targets]
      norm_num
    · rw [suggest_eval_coarse]
      simp
    · decide

/-- C10 counterexample: the claim asserts non-negativity for every step
configuration, but with a negative fine step (the InkSteps fields are
plain ints) the suggestion carries a negative value. -/
theorem C10_counterexample :
    suggest_adjustment { L := 38, a := 3, b := 0 } phase1Targets
        { coarse := 4, fine := -1 } = [("C", -1), ("M", 0), ("Y", 0)] ∧
      (-1 : Int) < 0 := by
  constructor
  · simp only [suggest_adjustment, a_err_of, b_err_of, a_tol_of, b_tol_of,
      qabs, phase1Targets]
    norm_num
  · decide

/-- C10 (amended): the suggestion's key list is exactly C, M, Y; every
value is 0, the fine step, twice the fine step, or the coarse step; and
when both configured steps are non-negative (as the defaults 4 and 1 are),
every value is non-negative. -/
theorem C10_amended (patch_lab : Lab) (targets : Phase1Targets)
    (steps : InkSteps) :
    (suggest_adjustment patch_lab targets steps).map Prod.fst =
        ["C", "M", "Y"] ∧
    (∀ p ∈ suggest_adjustment patch_lab targets steps,
      p.2 = 0 ∨ p.2 = steps.fine ∨ p.2 = 2 * steps.fine ∨ p.2 = steps.coarse) ∧
    (0 ≤ steps.fine → 0 ≤ steps.coarse →
      ∀ p ∈ suggest_adjustment patch_lab targets steps, 0 ≤ p.2) := by
  refine ⟨?_, ?_, ?_⟩
  · unfold suggest_adjustment
    dsimp only
    split_ifs <;> simp [apply_ite Prod.fst]
  · intro p hp
    unfold suggest_adjustment at hp
    dsimp only at hp
    by_cases hesc : qabs (a_err_of patch_lab targets) > a_tol_of targets * 2 ∨
        qabs (b_err_of patch_lab targets) > b_tol_of targets * 2
    · rw [if_pos hesc] at hp
      rcases List.mem_map.mp hp with ⟨x, _, rfl⟩
      by_cases hx2 : x.2 ≠ 0
      · rw [if_pos hx2]
        simp
      · rw [if_neg hx2]
        simp only [not_not] at hx2
        simp [hx2]
    · rw [if_neg hesc] at hp
      simp only [List.mem_cons, List.not_mem_nil, or_false] at hp
      rcases hp with rfl | rfl | rfl <;>
        · dsimp only
          split_ifs <;> dsimp only <;> omega
  · intro hf hc p hp
    unfold suggest_adjustment at hp
    dsimp only at hp
    by_cases hesc : qabs (a_err_of patch_lab targets) > a_tol_of targets * 2 ∨
        qabs (b_err_of patch_lab targets) > b_tol_of targets * 2
    · rw [if_pos hesc] at hp
      rcases List.mem_map.mp hp with ⟨x, _, rfl⟩
      by_cases hx2 : x.2 ≠ 0
      · rw [if_pos hx2]
        exact hc
      · rw [if_neg hx2]
        simp only [not_not] at hx2
        simp [hx2]
    · rw [if_neg hesc] at hp
      simp only [List.mem_cons, List.not_mem_nil, or_false] at hp
      rcases hp with rfl | rfl | rfl <;>
        · dsimp only
          split_ifs <;> dsimp only <;> omega

/-- Witness for C10 (amended) at the test-suite scenario, discharging the
non-negativity hypotheses at the default steps. -/
theorem C10_witness :
    (suggest_adjustment { L := 50, a := -3, b := -9 } phase1Targets
        inkSteps).map Prod.fst = ["C", "M", "Y"] ∧
      (0 : Int) ≤ (("M" : String), (4 : Int)).2 := by
  constructor
  · exact (C10_amended { L := 50, a := -3, b := -9 } phase1Targets inkSteps).1
  · apply (C10_amended { L := 50, a := -3, b := -9 } phase1Targets inkSteps).2.2
    · decide
    · decide
    · rw [suggest_eval_coarse]
      simp

/-- C1 (code-bug evidence): at a reading whose L is outside the Phase 1
L-range while a and b sit at the target centre, the computed suggestion is
the zero-adjustment and the reading is outside target, yet
process_measurements records the suggestion pair and stays in
PHASE_1_NEUTRAL_GREY returning the suggestion message — it does not
transition to ERROR with the inconsistency message, and the within-target
variant can likewise never advance through the zero-adjustment branch: the
Python `if not adjustment:` guard tests dict emptiness, and the dict
returned by suggest_adjustment always carries the three channel keys, so
both zero-adjustment branches of `_process_phase1` are unreachable. -/
theorem C1_zero_adjustment_branch_dead :
    suggest_adjustment { L := 50, a := 0, b := 0 } phase1Targets inkSteps =
      [("C", 0), ("M", 0), ("Y", 0)] ∧
    is_patch_within_target { L := 50, a := 0, b := 0 } phase1Targets = false ∧
    process_measurements defaultCollab initState
        [("RGB100", { L := 50, a := 0, b := 0 })] =
      some (⟨PHASE_1_NEUTRAL_GREY,
          [([("RGB100", { L := 50, a := 0, b := 0 })],
            [("C", 0), ("M", 0), ("Y", 0)])], "", none⟩,
        "Suggestion for next print: C: 0, M: 0, Y: 0") := by
  refine ⟨?_, ?_, ?_⟩
  · simp only [suggest_adjustment, a_err_of, b_err_of, a_tol_of, b_tol_of,
      qabs, phase1Targets, inkSteps]
    norm_num
  · simp only [is_patch_within_target, phase1Targets, decide_eq_false_iff_not]
    norm_num
  · simp only [process_measurements, processPhase1, initState, get_patch_lab,
      suggest_adjustment, a_err_of, b_err_of, a_tol_of, b_tol_of, qabs,
      phase1Targets, inkSteps, is_patch_within_target, adjRepr]
    norm_num [List.find?, String.intercalate, List.intersperse]
    rfl

/-- C9: on a controller with empty history in PRECONDITION or Phase 1, a
batch containing the anchor patch always yields exactly one appended
(batch, suggestion) pair, the suggestion message, and the
PHASE_1_NEUTRAL_GREY phase — even when the reading is already within all
target ranges — because convergence is only decided against a previous
history entry. -/
theorem C9_first_call_records_suggestion (co : Collaborators)
    (s : ControllerState) (df : Batch) (lab : Lab)
    (hp : s.phase = PRECONDITION ∨ s.phase = PHASE_1_NEUTRAL_GREY)
    (hh : s.history = [])
    (hl : get_patch_lab df phase1Targets.patch_name = some lab) :
    process_measurements co s df =
      some (⟨PHASE_1_NEUTRAL_GREY,
          [(df, suggest_adjustment lab phase1Targets inkSteps)],
          s.last_error_message, s.last_measurements_df⟩,
        "Suggestion for next print: " ++
          adjRepr (suggest_adjustment lab phase1Targets inkSteps)) := by
  obtain ⟨ph, hist, lem, lmdf⟩ := s
  dsimp only at hh hp ⊢
  subst hh
  rcases hp with hp | hp <;> subst hp <;>
    simp [process_measurements, processPhase1, hl, suggest_adjustment_isEmpty]

/-- Witness for C9 at a concrete within-target reading: even then, the
first call only records a suggestion and stays in Phase 1. -/
theorem C9_witness :
    process_measurements defaultCollab initState
        [("RGB100", { L := 38, a := 0, b := 0 })] =
      some (⟨PHASE_1_NEUTRAL_GREY,
          [([("RGB100", { L := 38, a := 0, b := 0 })],
            suggest_adjustment { L := 38, a := 0, b := 0 } phase1Targets
              inkSteps)], "", none⟩,
        "Suggestion for next print: " ++
          adjRepr (suggest_adjustment { L := 38, a := 0, b := 0 }
            phase1Targets inkSteps)) := by
  apply C9_first_call_records_suggestion defaultCollab initState
  · left
    rfl
  · rfl
  · simp only [get_patch_lab, List.find?, phase1Targets]
    rfl

/-- C5 counterexample: a Phase 3 submission overwrites the stored last
error message with the locked-message text, so the claim that the last
error message is unchanged fails at a state whose message was "x". -/
theorem C5_counterexample :
    process_measurements defaultCollab
        ⟨PHASE_3_DRIVER_LOCK, [], "x", none⟩ [] =
      some (⟨PHASE_3_DRIVER_LOCK, [], lockedMsg, none⟩, lockedMsg) ∧
      ("x" : String) ≠ lockedMsg := by
  constructor
  · rfl
  · decide

/-- C5 (amended): a submission in PHASE_3_DRIVER_LOCK,
PHASE_5_ICC_CONSTRUCTION or COMPLETE returns the explanatory locked
message and leaves phase, history and the retained batch unchanged — but
it does overwrite the last error message with that locked message. -/
theorem C5_locked_phase_frame (co : Collaborators) (s : ControllerState)
    (df : Batch)
    (hp : s.phase = PHASE_3_DRIVER_LOCK ∨ s.phase = PHASE_5_ICC_CONSTRUCTION ∨
      s.phase = COMPLETE) :
    process_measurements co s df =
      some ({ s with last_error_message := lockedMsg }, lockedMsg) := by
  obtain ⟨ph, hist, lem, lmdf⟩ := s
  dsimp only at hp
  rcases hp with hp | hp | hp <;> subst hp <;>
    simp [process_measurements]

/-- Witness for C5 (amended) in the COMPLETE phase. -/
theorem C5_witness :
    process_measurements defaultCollab ⟨COMPLETE, [], "", none⟩ [] =
      some (⟨COMPLETE, [], lockedMsg, none⟩, lockedMsg) :=
  C5_locked_phase_frame defaultCollab ⟨COMPLETE, [], "", none⟩ []
    (Or.inr (Or.inr rfl))

/-- C4: in Phase 2, when the three neutral patches are present and the
RGB150/RGB200 absolute-tolerance checks pass, a sign flip of the a-error
or b-error between consecutive patches (RGB100 → RGB150 → RGB200) yields
the not-monotonic message and a transition to PHASE_3_DRIVER_LOCK (never
to ERROR). -/
theorem C4_nonmonotonic_slope_soft_stops (co : Collaborators)
    (s : ControllerState) (df : Batch) (l1 l150 l200 : Lab)
    (hp : s.phase = PHASE_2_NEUTRAL_SLOPE)
    (h1 : get_patch_lab df phase1Targets.patch_name = some l1)
    (h150 : get_patch_lab df phase2Targets.rgb150_patch_name = some l150)
    (h200 : get_patch_lab df phase2Targets.rgb200_patch_name = some l200)
    (htol : |l150.a| ≤ phase2Targets.rgb150_a_tol ∧
      |l150.b| ≤ phase2Targets.rgb150_b_tol ∧
      |l200.a| ≤ phase2Targets.rgb200_a_tol ∧
      |l200.b| ≤ phase2Targets.rgb200_b_tol)
    (hflip : npSign l1.a * npSign l150.a < 0 ∨
      npSign l150.a * npSign l200.a < 0 ∨
      npSign l1.b * npSign l150.b < 0 ∨
      npSign l150.b * npSign l200.b < 0) :
    process_measurements co s df =
      some ({ s with
          phase := PHASE_3_DRIVER_LOCK
          last_error_message :=
            "Neutral slope is not monotonic. Indicates driver limits." },
        "Neutral slope is not monotonic. Indicates driver limits. Freezing driver adjustments.") := by
  simp only [← qabs_eq_abs] at htol
  obtain ⟨ph, hist, lem, lmdf⟩ := s
  dsimp only at hp
  subst hp
  have hd : process_measurements co
      ⟨PHASE_2_NEUTRAL_SLOPE, hist, lem, lmdf⟩ df =
      some (processPhase2 ⟨PHASE_2_NEUTRAL_SLOPE, hist, lem, lmdf⟩ df) := by
    simp [process_measurements]
  rw [hd]
  unfold processPhase2
  rw [h1, h150, h200]
  dsimp only
  rw [if_neg (by simp [htol.1, htol.2.1, htol.2.2.1, htol.2.2.2])]
  rw [if_pos hflip]
  rfl

/-- Witness for C4: a-error signs [+, +, -] across the three neutral
patches, with both tolerance checks passing. -/
theorem C4_witness :
    process_measurements defaultCollab
        ⟨PHASE_2_NEUTRAL_SLOPE, [], "", none⟩
        [("RGB100", { L := 50, a := 1, b := 0 }),
          ("RGB150", { L := 60, a := 1, b := 0 }),
          ("RGB200", { L := 70, a := -1, b := 0 })] =
      some (⟨PHASE_3_DRIVER_LOCK, [],
          "Neutral slope is not monotonic. Indicates driver limits.", none⟩,
        "Neutral slope is not monotonic. Indicates driver limits. Freezing driver adjustments.") := by
  apply C4_nonmonotonic_slope_soft_stops defaultCollab
    ⟨PHASE_2_NEUTRAL_SLOPE, [], "", none⟩ _
    { L := 50, a := 1, b := 0 } { L := 60, a := 1, b := 0 }
    { L := 70, a := -1, b := 0 }
  · rfl
  · rfl
  · rfl
  · rfl
  · refine ⟨?_, ?_, ?_, ?_⟩ <;>
      · simp only [phase2Targets]
        norm_num
  · right
    left
    simp only [npSign]
    norm_num

/-- C7: in Phase 1 with non-empty history, when the current anchor error
strictly exceeds the previous batch's error, the call converges regardless
of the minimal-change distance test: within target it advances to Phase 2
and processes the same batch there, outside target it freezes to
PHASE_3_DRIVER_LOCK with the warning message. -/
theorem C7_error_regression_converges (co : Collaborators)
    (s : ControllerState) (df prev_df : Batch) (prev_adj : Adjustment)
    (lab prev_lab : Lab)
    (hp : s.phase = PHASE_1_NEUTRAL_GREY)
    (hlast : s.history.getLast? = some (prev_df, prev_adj))
    (hcur : get_patch_lab df phase1Targets.patch_name = some lab)
    (hprev : get_patch_lab prev_df phase1Targets.patch_name = some prev_lab)
    (hworse : get_phase1_error_sq lab > get_phase1_error_sq prev_lab) :
    process_measurements co s df =
      (if is_patch_within_target lab phase1Targets then
        some (processPhase2
          { s with
            history := s.history ++ [(df, [])]
            phase := PHASE_2_NEUTRAL_SLOPE } df)
      else
        some ({ s with phase := PHASE_3_DRIVER_LOCK },
          convergedOutsideMsg)) := by
  obtain ⟨ph, hist, lem, lmdf⟩ := s
  dsimp only at hp hlast ⊢
  subst hp
  simp [process_measurements, processPhase1, hcur, hlast, hprev,
    decide_eq_true hworse]

/-- Witness for C7: the previous reading was centred, the current reading
regressed to a worse error but remains within target, so the same batch is
immediately validated by Phase 2 (which then reports the missing RGB150
and RGB200 patches). -/
theorem C7_witness :
    process_measurements defaultCollab
        ⟨PHASE_1_NEUTRAL_GREY,
          [([("RGB100", { L := 38, a := 0, b := 0 })], [])], "", none⟩
        [("RGB100", { L := 38, a := 1, b := 0 })] =
      (if is_patch_within_target { L := 38, a := 1, b := 0 } phase1Targets then
        some (processPhase2
          { (⟨PHASE_1_NEUTRAL_GREY,
              [([("RGB100", { L := 38, a := 0, b := 0 })], [])], "",
              none⟩ : ControllerState) with
            history := [([("RGB100", { L := 38, a := 0, b := 0 })], []),
              ([("RGB100", { L := 38, a := 1, b := 0 })], [])]
            phase := PHASE_2_NEUTRAL_SLOPE }
          [("RGB100", { L := 38, a := 1, b := 0 })])
      else
        some ({ (⟨PHASE_1_NEUTRAL_GREY,
            [([("RGB100", { L := 38, a := 0, b := 0 })], [])], "",
            none⟩ : ControllerState) with
            phase := PHASE_3_DRIVER_LOCK }, convergedOutsideMsg)) := by
  have h := C7_error_regression_converges defaultCollab
    ⟨PHASE_1_NEUTRAL_GREY,
      [([("RGB100", { L := 38, a := 0, b := 0 })], [])], "", none⟩
    [("RGB100", { L := 38, a := 1, b := 0 })]
    [("RGB100", { L := 38, a := 0, b := 0 })] []
    { L := 38, a := 1, b := 0 } { L := 38, a := 0, b := 0 }
    rfl rfl rfl rfl
    (by simp only [get_phase1_error_sq, phase1Targets]; norm_num)
  simpa using h

/-- C8: export_icc rejects any phase other than PHASE_5_ICC_CONSTRUCTION
without state change; in PHASE_5 without a retained batch it transitions
to ERROR; in PHASE_5 with a retained batch it returns the exporter's
message verbatim, moving to COMPLETE exactly on reported success and
changing nothing on reported failure. -/
theorem C8_export_behaviour (s : ControllerState) (r : Bool × String) :
    (s.phase ≠ PHASE_5_ICC_CONSTRUCTION →
      export_icc s r = (s, "Not in the correct phase to export an ICC profile.")) ∧
    (s.phase = PHASE_5_ICC_CONSTRUCTION → s.last_measurements_df = none →
      export_icc s r =
        ({ s with
            phase := ERROR
            last_error_message := "No valid measurement data available for export." },
          "No valid measurement data available for export.")) ∧
    (s.phase = PHASE_5_ICC_CONSTRUCTION → s.last_measurements_df.isSome →
      export_icc s r =
        ((if r.1 then { s with phase := COMPLETE } else s), r.2)) := by
  refine ⟨?_, ?_, ?_⟩
  · intro h
    unfold export_icc
    rw [if_pos h]
  · intro h hnone
    unfold export_icc
    rw [if_neg (by simp [h])]
    rw [hnone]
  · intro h hsome
    unfold export_icc
    rw [if_neg (by simp [h])]
    obtain ⟨b, hb⟩ := Option.isSome_iff_exists.mp hsome
    rw [hb]
    dsimp only
    split_ifs <;> rfl

/-- Witness for C8: the three export scenarios at concrete states with a
successful exporter outcome. -/
theorem C8_witness :
    export_icc ⟨PRECONDITION, [], "", none⟩ (true, "ok") =
      (⟨PRECONDITION, [], "", none⟩,
        "Not in the correct phase to export an ICC profile.") ∧
    export_icc ⟨PHASE_5_ICC_CONSTRUCTION, [], "", none⟩ (true, "ok") =
      (⟨ERROR, [], "No valid measurement data available for export.", none⟩,
        "No valid measurement data available for export.") ∧
    export_icc ⟨PHASE_5_ICC_CONSTRUCTION, [], "", some []⟩ (true, "ok") =
      (⟨COMPLETE, [], "", some []⟩, "ok") := by
  refine ⟨?_, ?_, ?_⟩
  · exact (C8_export_behaviour ⟨PRECONDITION, [], "", none⟩ (true, "ok")).1
      (by decide)
  · exact (C8_export_behaviour ⟨PHASE_5_ICC_CONSTRUCTION, [], "", none⟩
      (true, "ok")).2.1 rfl rfl
  · exact (C8_export_behaviour ⟨PHASE_5_ICC_CONSTRUCTION, [], "", some []⟩
      (true, "ok")).2.2 rfl rfl

/-- dict_insert introduces no key other than the inserted one. -/
theorem dict_insert_key (d : List (String × Lab)) (k : String) (v : Lab)
    (q : String × Lab) (hq : q ∈ dict_insert d k v) : q ∈ d ∨ q.1 = k := by
  unfold dict_insert at hq
  split_ifs at hq with hany
  · rcases List.mem_map.mp hq with ⟨p, hp, he⟩
    by_cases hk : (p.1 == k) = true
    · rw [if_pos hk] at he
      right
      rw [← he]
    · rw [if_neg hk] at he
      left
      rw [← he]
      exact hp
  · rcases List.mem_append.mp hq with h | h
    · left
      exact h
    · right
      have : q = (k, v) := List.mem_singleton.mp h
      rw [this]

/-- Every key of the folded dict comes from the accumulator or the batch. -/
theorem foldl_dict_key (df : Batch) :
    ∀ (d : List (String × Lab)) (q : String × Lab),
      q ∈ df.foldl (fun d r => dict_insert d r.1 r.2) d →
        q ∈ d ∨ q.1 ∈ df.map Prod.fst := by
  induction df with
  | nil =>
    intro d q hd
    left
    simpa using hd
  | cons r rest ih =>
    intro d q hd
    simp only [List.foldl_cons] at hd
    rcases ih _ q hd with h1 | h1
    · rcases dict_insert_key d r.1 r.2 q h1 with h2 | h2
      · left
        exact h2
      · right
        simp [h2]
    · right
      simp [h1]

/-- Every key of the measured dict is a patch name of the batch. -/
theorem measured_dict_key (df : Batch) (q : String × Lab)
    (hq : q ∈ measured_dict df) : q.1 ∈ df.map Prod.fst := by
  rcases foldl_dict_key df [] q hq with h | h
  · simp at h
  · exact h

/-- A name outside the static patch table is not found in the Reference
Colour Table, whatever the colour-transform collaborator computes. -/
theorem reference_find?_eq_none (co : Collaborators) (n : String)
    (hn : n ∉ reference_names) :
    (get_reference_lab_values co).find? (fun q => q.1 == n) = none := by
  rw [List.find?_eq_none]
  intro x hx
  rcases List.mem_map.mp hx with ⟨c, hc, rfl⟩
  simp only [beq_iff_eq]
  intro he
  apply hn
  rw [reference_names]
  exact List.mem_map.mpr ⟨c, hc, he⟩

/-- C6 counterexample: a Phase 4 batch with zero patches in the Reference
Colour Table does get the explanatory no-match report, but the phase does
not stay unchanged: the controller transitions to ERROR. -/
theorem C6_counterexample :
    process_measurements defaultCollab
        ⟨PHASE_4_COLOR_ANALYSIS, [], "", none⟩
        [("Unknown1", { L := 0, a := 0, b := 0 })] =
      some (⟨ERROR, [],
          "Colour patch analysis failed. See report for details.", none⟩,
        "No matching patches found between measurements and references.") ∧
      (ERROR : CalibrationPhase) ≠ PHASE_4_COLOR_ANALYSIS := by
  constructor
  · rfl
  · decide

/-- C6 (amended): in Phase 4, a batch with zero patch names in the
Reference Colour Table fails immediately with the explanatory no-match
report, and the controller transitions to ERROR (recording the analysis
failure as the last error), rather than leaving the phase unchanged. -/
theorem C6_no_match_errors (co : Collaborators) (s : ControllerState)
    (df : Batch)
    (hp : s.phase = PHASE_4_COLOR_ANALYSIS)
    (hnone : ∀ r ∈ df, r.1 ∉ reference_names) :
    process_measurements co s df =
      some ({ s with
          phase := ERROR
          last_error_message :=
            "Colour patch analysis failed. See report for details." },
        "No matching patches found between measurements and references.") := by
  obtain ⟨ph, hist, lem, lmdf⟩ := s
  dsimp only at hp
  subst hp
  have hde : (measured_dict df).filterMap (fun p =>
      match (get_reference_lab_values co).find? (fun q => q.1 == p.1) with
      | some q => some (p.1, co.delta_e p.2 q.2)
      | none => none) = [] := by
    rw [List.filterMap_eq_nil_iff]
    intro p hp2
    have hk := measured_dict_key df p hp2
    rcases List.mem_map.mp hk with ⟨r, hr, hr1⟩
    have hnr : p.1 ∉ reference_names := hr1 ▸ hnone r hr
    rw [reference_find?_eq_none co p.1 hnr]
  simp [process_measurements, processPhase4, analyze_color_patches, hde]

/-- Witness for C6 (amended) at a concrete unknown-patch batch. -/
theorem C6_witness :
    process_measurements defaultCollab
        ⟨PHASE_4_COLOR_ANALYSIS, [], "", none⟩
        [("Unknown1", { L := 0, a := 0, b := 0 })] =
      some (⟨ERROR, [],
          "Colour patch analysis failed. See report for details.", none⟩,
        "No matching patches found between measurements and references.") :=
  C6_no_match_errors defaultCollab ⟨PHASE_4_COLOR_ANALYSIS, [], "", none⟩
    [("Unknown1", { L := 0, a := 0, b := 0 })] rfl (by decide)

end PrinterCalibration
